import Mathlib

/-!
Shallow embedding of the JUCE ARA audio reader subsystem
(`juce_ARAAudioReaders.cpp` / `.h`): `ARAAudioSourceReader`,
`ARAPlaybackRegionReader` and `ARARegionSequenceReader`.

Modelling conventions:
* Sample buffers are functions `Nat → Int` (frame index → sample value);
  a destination channel array is `Nat → Option (Nat → Int)` where `none`
  models a null channel pointer.  `zeromem` over `(bitsPerSample/8) *
  numSamples` bytes at byte offset `(bitsPerSample/8) * startOffset`
  zeroes exactly `numSamples` frames starting at frame `startOffset`,
  since every frame is `bitsPerSample/8` bytes wide; the embedding works
  at frame granularity.
* The `juce::ReadWriteLock` is modelled by `LockState`: `tryEnterRead`
  succeeds exactly when no writer is active, `enterRead` increments the
  reader count, `exitRead` decrements it.  Lifecycle notifications run
  writer-exclusively and are modelled as atomic steps.
* The host-provided `ARA::PlugIn::HostAudioReader` is opaque: it is
  modelled by the samples it would deliver per channel and file position
  and by the success flag of `readAudioSamples`.
-/

namespace ARAReaders

/-- Lock state of one `juce::ReadWriteLock`: whether a writer currently
holds the lock, and how many readers hold it. -/
structure LockState where
  writerActive : Bool
  readerCount : Nat
  deriving DecidableEq, Repr

/-- The opaque host accessor `ARA::PlugIn::HostAudioReader`: `sampleAt ch
pos` is the sample it delivers for channel `ch` at file position `pos`,
and `readSuccess start n` is the flag `readAudioSamples` returns for the
range `[start, start + n)`. -/
structure HostAudioReader where
  sampleAt : Nat → Int → Int
  readSuccess : Int → Nat → Bool

/-- Host-owned `ARAAudioSource` state as seen by the reader: format
fields, the sample-access flag, and the accessor data the host would hand
out while access is enabled. -/
structure AudioSourceState where
  sampleRate : ℚ
  channelCount : Nat
  sampleCount : Int
  accessEnabled : Bool
  hostReader : HostAudioReader

/-- Zero `n` frames of buffer `b` starting at frame `off`, leaving every
other frame unchanged (the effect of `zeromem` on the frame range). -/
def zeroFill (b : Nat → Int) (off n : Nat) : Nat → Int :=
  fun i => if off ≤ i ∧ i < off + n then 0 else b i

/-- Overwrite frames `[off, off + n)` of buffer `b` with `f 0 … f (n-1)`,
leaving every other frame unchanged (the effect of the accessor writing
through a destination pointer offset by `off`). -/
def writeThrough (b : Nat → Int) (off n : Nat) (f : Nat → Int) : Nat → Int :=
  fun i => if off ≤ i ∧ i < off + n then f (i - off) else b i

/-- `ARAAudioSourceReader::readSamples`.  Inputs: the reader's
`tmpPtrs.size()` (fixed to the channel count at construction), its
`araHostReader`, the lock, the destination channel array, and the read
request.  Output: the lock state after the call, the destination
channels after the call, and the returned flag.

Faithful to the source: the condition
`!lock.tryEnterRead() || araHostReader == nullptr` short-circuits, so on
the accessor-null branch with an uncontested lock the read lock has been
entered and is not exited before returning (the reader count stays
incremented).  The failure branch `zeromem`s every non-null destination
channel below `numDestChannels`.  The success branch writes accessor
samples through every destination channel below both `tmpPtrs.size()`
and `numDestChannels`; other `tmpPtrs` slots point at a dummy scratch
buffer, so no other destination channel is touched, and it returns
`readAudioSamples`' flag after `exitRead`. -/
def ARAAudioSourceReader.readSamples
    (tmpPtrsSize : Nat) (araHostReader : Option HostAudioReader)
    (lock : LockState) (destSamples : Nat → Option (Nat → Int))
    (numDestChannels startOffsetInDestBuffer : Nat)
    (startSampleInFile : Int) (numSamples : Nat) :
    LockState × (Nat → Option (Nat → Int)) × Bool :=
  if h : lock.writerActive = true ∨ araHostReader.isNone = true then
    ((if lock.writerActive then lock
      else { lock with readerCount := lock.readerCount + 1 }),
     (fun ch => if ch < numDestChannels then
        (destSamples ch).map
          (fun b => zeroFill b startOffsetInDestBuffer numSamples)
      else destSamples ch),
     false)
  else
    let hr := araHostReader.get
      (Option.ne_none_iff_isSome.mp
        (fun hn => h (Or.inr (by simp [hn]))))
    (lock,
     (fun ch => if ch < tmpPtrsSize ∧ ch < numDestChannels then
        (destSamples ch).map
          (fun b => writeThrough b startOffsetInDestBuffer numSamples
            (fun i => hr.sampleAt ch (startSampleInFile + i)))
      else destSamples ch),
     hr.readSuccess startSampleInFile numSamples)

/-- State of one `ARAAudioSourceReader` between operations: the format
fields fixed at construction, the (possibly cleared) reference to the
governing source, the accessor, and whether the reader is still
registered as a listener on the source. -/
structure SourceReaderState where
  bitsPerSample : Nat
  numChannels : Nat
  tmpPtrsSize : Nat
  audioSourceBeingRead : Option AudioSourceState
  araHostReader : Option HostAudioReader
  listening : Bool

/-- The `ARAAudioSourceReader` constructor: copies the source's format,
sizes `tmpPtrs` to the channel count, registers as listener, and creates
the Host Accessor exactly when the source currently has sample access
enabled (`recreate`). -/
def constructSourceReader (src : AudioSourceState) (use64BitSamples : Bool) :
    SourceReaderState where
  bitsPerSample := if use64BitSamples then 64 else 32
  numChannels := src.channelCount
  tmpPtrsSize := src.channelCount
  audioSourceBeingRead := some src
  araHostReader := if src.accessEnabled then some src.hostReader else none
  listening := true

/-- Lifecycle notifications delivered by the host to an
`ARAAudioSourceReader`.  `enableAccess e` is the whole
`willEnableAudioSourceSamplesAccess` / flag change /
`didEnableAudioSourceSamplesAccess` transition, which the split-phase
writer lock makes atomic with respect to readers.  `updateContent u` is
`doUpdateAudioSourceContent` where `u` says whether the flags contain
`kARAContentUpdateSignalScopeRemainsUnchanged`.  `destroySource` is
`willDestroyAudioSource`. -/
inductive SourceOp where
  | enableAccess (enable : Bool)
  | updateContent (signalUnchanged : Bool)
  | destroySource

/-- One lifecycle notification applied to a reader state.  A notification
only reaches the reader while it is registered as a listener.
`enableAccess false` runs `invalidate` (accessor reset); `enableAccess
true` runs `recreate` after the source's flag has changed (and `recreate`
returns without creating anything when the source reference is null).
`updateContent` returns untouched when the signal scope is unchanged and
otherwise runs `invalidate` under the writer lock.  `destroySource`
deregisters the listener, runs `invalidate` and clears the source
reference. -/
def applySourceOp (s : SourceReaderState) (op : SourceOp) : SourceReaderState :=
  if s.listening = false then s
  else
    match op with
    | .enableAccess e =>
      match s.audioSourceBeingRead with
      | none => s
      | some src =>
        let src := { src with accessEnabled := e }
        { s with audioSourceBeingRead := some src,
                 araHostReader := if e then some src.hostReader else none }
    | .updateContent signalUnchanged =>
      if signalUnchanged then s else { s with araHostReader := none }
    | .destroySource =>
      { s with listening := false, araHostReader := none,
               audioSourceBeingRead := none }

/-- A reader constructed on `src` after a sequence of lifecycle
notifications. -/
def runSourceReader (src : AudioSourceState) (use64BitSamples : Bool)
    (ops : List SourceOp) : SourceReaderState :=
  ops.foldl applySourceOp (constructSourceReader src use64BitSamples)

/-- Invariant carried through the lifecycle: once a reader has stopped
listening, its accessor is destroyed and its source reference cleared. -/
def SourceReaderState.frozenClear (s : SourceReaderState) : Prop :=
  s.listening = false →
    s.araHostReader = none ∧ s.audioSourceBeingRead = none

/-- The right-hand side of invariant I2: the governing Audio Source
reports sample access enabled and has not been destroyed. -/
def SourceReaderState.sourceEnabledLive (s : SourceReaderState) : Prop :=
  ∃ src, s.audioSourceBeingRead = some src ∧ src.accessEnabled = true

/-- A concrete Host Accessor used for concrete evaluations. -/
def cexHostReader : HostAudioReader where
  sampleAt := fun _ _ => 9
  readSuccess := fun _ _ => true

/-- A concrete enabled stereo Audio Source used for concrete
evaluations. -/
def cexSrc : AudioSourceState where
  sampleRate := 44100
  channelCount := 2
  sampleCount := 10
  accessEnabled := true
  hostReader := cexHostReader

/-- The external `ARAPlaybackRenderer` owned by an
`ARAPlaybackRegionReader`: its maximum block size (as reported by
`getMaxSamplesPerBlock`, set by `prepareToPlay`), the sample each
`processBlock` call writes for a channel at a file position, and the
result each `processBlock` call reports for a range (the code discards
it). -/
structure Renderer where
  maxSamplesPerBlock : Nat
  sample : Nat → Int → Int
  blockResult : Int → Nat → Bool

/-- `playbackRenderer->processBlock (buffer, startSampleInFile, true)`
where `buffer` is the `AudioBuffer<float>` view of `numDestChannels`
channels of `destSamples`, `numSliceSamples` frames starting at frame
`startOffsetInDestBuffer`: those frames of those channels receive the
rendered samples for file positions starting at `startSampleInFile`;
everything else is untouched. -/
def Renderer.processBlock (rd : Renderer) (destSamples : Nat → Nat → Int)
    (numDestChannels startOffsetInDestBuffer : Nat)
    (startSampleInFile : Int) (numSliceSamples : Nat) : Nat → Nat → Int :=
  fun ch i =>
    if ch < numDestChannels ∧ startOffsetInDestBuffer ≤ i ∧
        i < startOffsetInDestBuffer + numSliceSamples then
      rd.sample ch (startSampleInFile + (i - startOffsetInDestBuffer))
    else destSamples ch i

/-- The `while (numSamples > 0)` rendering loop of
`ARAPlaybackRegionReader::readSamples`: render chunks of at most
`getMaxSamplesPerBlock()` frames, advancing the destination offset and
the file position per chunk.  The loop only terminates when the
renderer's maximum block size is positive, which `prepareToPlay
(sampleRate, 16*1024)` guarantees; the positivity proof is threaded as
an argument. -/
def Renderer.renderLoop (rd : Renderer) (hmax : 0 < rd.maxSamplesPerBlock)
    (destSamples : Nat → Nat → Int)
    (numDestChannels startOffsetInDestBuffer : Nat)
    (startSampleInFile : Int) (numSamples : Nat) : Nat → Nat → Int :=
  if hn : numSamples = 0 then destSamples
  else
    let numSliceSamples := min numSamples rd.maxSamplesPerBlock
    Renderer.renderLoop rd hmax
      (rd.processBlock destSamples numDestChannels startOffsetInDestBuffer
        startSampleInFile numSliceSamples)
      numDestChannels
      (startOffsetInDestBuffer + numSliceSamples)
      (startSampleInFile + (numSliceSamples : Int))
      (numSamples - numSliceSamples)
termination_by numSamples
decreasing_by
  exact Nat.sub_lt (Nat.pos_of_ne_zero hn) (lt_min (Nat.pos_of_ne_zero hn) hmax)

/-- `ARAPlaybackRegionReader::readSamples`.  On a failed `tryEnterRead`,
`FloatVectorOperations::clear (destSamples[ch], numSamples)` zeroes the
first `numSamples` frames of every destination channel (note: at offset
0, not at `startOffsetInDestBuffer`, and with no null check) and the
call returns `false`.  Otherwise it runs the chunked rendering loop and
returns `true` unconditionally after `exitRead` — the renderer's
per-block result is discarded. -/
def ARAPlaybackRegionReader.readSamples (rd : Renderer)
    (hmax : 0 < rd.maxSamplesPerBlock) (lock : LockState)
    (destSamples : Nat → Nat → Int)
    (numDestChannels startOffsetInDestBuffer : Nat)
    (startSampleInFile : Int) (numSamples : Nat) :
    LockState × (Nat → Nat → Int) × Bool :=
  if lock.writerActive = true then
    (lock,
     (fun ch i => if ch < numDestChannels ∧ i < numSamples then 0
       else destSamples ch i),
     false)
  else
    (lock,
     rd.renderLoop hmax destSamples numDestChannels startOffsetInDestBuffer
       startSampleInFile numSamples,
     true)

/-- The equivalent back-to-back sequence of reads, each of at most the
renderer's maximum block size: issue one `readSamples` call per chunk,
each over the same span the loop's corresponding chunk covers, threading
lock, buffers, and the conjunction of the returned flags. -/
def ARAPlaybackRegionReader.readSeq (rd : Renderer)
    (hmax : 0 < rd.maxSamplesPerBlock) (lock : LockState)
    (destSamples : Nat → Nat → Int)
    (numDestChannels startOffsetInDestBuffer : Nat)
    (startSampleInFile : Int) (numSamples : Nat) :
    LockState × (Nat → Nat → Int) × Bool :=
  if hn : numSamples = 0 then (lock, destSamples, true)
  else
    let k := min numSamples rd.maxSamplesPerBlock
    let step := ARAPlaybackRegionReader.readSamples rd hmax lock destSamples
      numDestChannels startOffsetInDestBuffer startSampleInFile k
    let rest := ARAPlaybackRegionReader.readSeq rd hmax step.1 step.2.1
      numDestChannels (startOffsetInDestBuffer + k) (startSampleInFile + (k : Int))
      (numSamples - k)
    (rest.1, rest.2.1, step.2.2 && rest.2.2)
termination_by numSamples
decreasing_by
  exact Nat.sub_lt (Nat.pos_of_ne_zero hn) (lt_min (Nat.pos_of_ne_zero hn) hmax)

/-- What the `ARAPlaybackRegionReader` constructor reads from one
playback region: the sample rate and channel count of the audio
modification's source, and `getEndInPlaybackSamples (rate)` as a
function of the sample rate it is queried at. -/
structure PlaybackRegionInfo where
  sourceSampleRate : ℚ
  sourceChannelCount : Nat
  endInPlaybackSamples : ℚ → Int

/-- The output format fields of an `ARAPlaybackRegionReader`. -/
structure PRFormat where
  sampleRate : ℚ
  numChannels : Nat
  lengthInSamples : Int
  deriving DecidableEq

/-- The loop body of the `ARAPlaybackRegionReader` constructor: take the
region's source rate if none was adopted yet (`sampleRate == 0.0`), then
max the channel count in, then max in the region's end position queried
at the rate adopted so far. -/
def prFormatStep (st : PRFormat) (r : PlaybackRegionInfo) : PRFormat :=
  let sr := if st.sampleRate = 0 then r.sourceSampleRate else st.sampleRate
  { sampleRate := sr,
    numChannels := max st.numChannels r.sourceChannelCount,
    lengthInSamples := max st.lengthInSamples (r.endInPlaybackSamples sr) }

/-- Format computation of the `ARAPlaybackRegionReader` constructor:
start from `numChannels = 1`, `lengthInSamples = 0`, `sampleRate = 0`,
fold the loop body over the supplied regions, and fall back to sample
rate 44100 when no region supplied one. -/
def constructPlaybackRegionReader (regions : List PlaybackRegionInfo) :
    PRFormat :=
  let f := regions.foldl prFormatStep ⟨0, 1, 0⟩
  if f.sampleRate = 0 then { f with sampleRate := 44100 } else f

/-- Observable actions of an `ARARegionSequenceReader` notification
handler, in program order. -/
inductive SeqReaderAction where
  | enterWriteLock
  | exitWriteLock
  | regionAddListener
  | regionRemoveListener
  | rendererReleaseResources
  | rendererAddRegion
  | rendererRemoveRegion
  deriving DecidableEq, Repr

/-- Action trace of
`ARARegionSequenceReader::didAddPlaybackRegionToRegionSequence`:
guarded on the region still being contained in the sequence, then, under
the scoped writer lock, `playbackRegion->addListener (this)`, then
`playbackRenderer->releaseResources ()`, then
`playbackRenderer->addPlaybackRegion (playbackRegion)`. -/
def didAddPlaybackRegionToRegionSequence (regionInSequence : Bool) :
    List SeqReaderAction :=
  if regionInSequence then
    [.enterWriteLock, .regionAddListener, .rendererReleaseResources,
     .rendererAddRegion, .exitWriteLock]
  else []

/-- One direction of invariant I2: the Host Accessor exists only if the
governing Audio Source reports access enabled and has not been
destroyed. -/
def SourceReaderState.accessorImpliesLive (s : SourceReaderState) : Prop :=
  s.araHostReader.isSome = true → s.sourceEnabledLive

/-- A concrete playback region with source sample rate 48000, two
channels, and end position 96000 samples when queried at rate 48000. -/
def cexRegionA : PlaybackRegionInfo where
  sourceSampleRate := 48000
  sourceChannelCount := 2
  endInPlaybackSamples := fun q => if q = 48000 then 96000 else 7

/-- A concrete renderer whose every `processBlock` call reports failure,
used to show the playback-region reader discards that result. -/
def cexFailingRenderer : Renderer where
  maxSamplesPerBlock := 4
  sample := fun _ _ => 5
  blockResult := fun _ _ => false

/-- A concrete playback region whose source reports sample rate 0 and
channel count 0, with end position `44100` when queried at rate 44100
and `0` when queried at rate 0 (an end position of one second). -/
def cexZeroRateRegion : PlaybackRegionInfo where
  sourceSampleRate := 0
  sourceChannelCount := 0
  endInPlaybackSamples := fun q => if q = 0 then 0 else 44100

end ARAReaders

namespace ARAReaders

/-- The failure path of `ARAAudioSourceReader::readSamples` (contested
lock or missing accessor): the returned flag is `false` and every
non-null destination channel below `numDestChannels` is zero-filled
over the requested span. -/
lemma sourceReader_read_failure_eq
    (tmpPtrsSize : Nat) (araHostReader : Option HostAudioReader)
    (lock : LockState) (destSamples : Nat → Option (Nat → Int))
    (numDestChannels startOffsetInDestBuffer : Nat)
    (startSampleInFile : Int) (numSamples : Nat)
    (hfail : lock.writerActive = true ∨ araHostReader = none) :
    (ARAAudioSourceReader.readSamples tmpPtrsSize araHostReader lock
        destSamples numDestChannels startOffsetInDestBuffer
        startSampleInFile numSamples).2 =
      ((fun ch => if ch < numDestChannels then
          (destSamples ch).map
            (fun b => zeroFill b startOffsetInDestBuffer numSamples)
        else destSamples ch),
       false) := by
  have hfail' : lock.writerActive = true ∨ araHostReader.isNone = true := by
    rcases hfail with h | h
    · exact Or.inl h
    · exact Or.inr (by simp [h])
  unfold ARAAudioSourceReader.readSamples
  rw [dif_pos hfail']

/-- Claim C1: while the read lock cannot be acquired or no Host Accessor
exists, `ARAAudioSourceReader::readSamples` zero-fills exactly
`numSamples` frames starting at `startOffsetInDestBuffer` of every
non-null destination channel among the `numDestChannels` supplied, and
returns `false`. -/
theorem sourceReader_read_failure_zeroFills
    (tmpPtrsSize : Nat) (araHostReader : Option HostAudioReader)
    (lock : LockState) (destSamples : Nat → Option (Nat → Int))
    (numDestChannels startOffsetInDestBuffer : Nat)
    (startSampleInFile : Int) (numSamples : Nat)
    (hfail : lock.writerActive = true ∨ araHostReader = none) :
    (ARAAudioSourceReader.readSamples tmpPtrsSize araHostReader lock
        destSamples numDestChannels startOffsetInDestBuffer
        startSampleInFile numSamples).2.2 = false ∧
    ∀ ch, ch < numDestChannels → ∀ b, destSamples ch = some b →
      (ARAAudioSourceReader.readSamples tmpPtrsSize araHostReader lock
          destSamples numDestChannels startOffsetInDestBuffer
          startSampleInFile numSamples).2.1 ch =
        some (zeroFill b startOffsetInDestBuffer numSamples) := by
  have heq := sourceReader_read_failure_eq tmpPtrsSize araHostReader lock
    destSamples numDestChannels startOffsetInDestBuffer startSampleInFile
    numSamples hfail
  constructor
  · rw [heq]
  · intro ch hch b hb
    rw [heq]
    simp only [if_pos hch, hb, Option.map_some']

/-- A notification applied to a reader that is no longer listening leaves
it unchanged: a deregistered reader receives no notification. -/
lemma applySourceOp_not_listening (s : SourceReaderState) (op : SourceOp)
    (h : s.listening = false) : applySourceOp s op = s := by
  unfold applySourceOp
  rw [if_pos h]

/-- A reader that is no longer listening is unchanged by any further
sequence of notifications. -/
lemma foldl_applySourceOp_not_listening (s : SourceReaderState)
    (h : s.listening = false) (l : List SourceOp) :
    l.foldl applySourceOp s = s := by
  induction l with
  | nil => rfl
  | cons op l ih => rw [List.foldl_cons, applySourceOp_not_listening s op h, ih]

lemma applySourceOp_frozenClear (s : SourceReaderState) (op : SourceOp)
    (hs : s.frozenClear) : (applySourceOp s op).frozenClear := by
  by_cases h : s.listening = false
  · rw [applySourceOp_not_listening s op h]
    exact hs
  · unfold applySourceOp
    rw [if_neg h]
    cases op with
    | enableAccess e =>
      cases hsrc : s.audioSourceBeingRead with
      | none => exact hs
      | some src =>
        intro hlisten
        exact absurd hlisten h
    | updateContent u =>
      cases u with
      | false =>
        intro hlisten
        exact absurd hlisten h
      | true =>
        simpa using hs
    | destroySource =>
      intro _
      exact ⟨rfl, rfl⟩

lemma foldl_applySourceOp_frozenClear (s : SourceReaderState)
    (hs : s.frozenClear) (l : List SourceOp) :
    (l.foldl applySourceOp s).frozenClear := by
  induction l generalizing s with
  | nil => exact hs
  | cons op l ih => exact ih _ (applySourceOp_frozenClear s op hs)

lemma runSourceReader_frozenClear (src : AudioSourceState)
    (use64BitSamples : Bool) (ops : List SourceOp) :
    (runSourceReader src use64BitSamples ops).frozenClear := by
  apply foldl_applySourceOp_frozenClear
  intro h
  simp [constructSourceReader] at h

/-- The state right after `willDestroyAudioSource` has run: listener
deregistered, accessor destroyed, source reference cleared. -/
lemma applySourceOp_destroy (s : SourceReaderState) (hs : s.frozenClear) :
    (applySourceOp s .destroySource).listening = false ∧
    (applySourceOp s .destroySource).araHostReader = none ∧
    (applySourceOp s .destroySource).audioSourceBeingRead = none := by
  by_cases h : s.listening = false
  · rw [applySourceOp_not_listening s _ h]
    exact ⟨h, hs h⟩
  · unfold applySourceOp
    rw [if_neg h]
    exact ⟨rfl, rfl, rfl⟩

/-- Claim C2: after `willDestroyAudioSource` the reader's accessor is
destroyed and its source reference cleared; every later notification
leaves the reader untouched (so nothing on the reader ever reaches the
destroyed source again), and every subsequent `readSamples` call returns
`false` with every provided destination channel zero-filled over the
requested span. -/
theorem sourceReader_after_destroy_silent (src : AudioSourceState)
    (use64BitSamples : Bool) (ops ops' : List SourceOp) (lock : LockState)
    (destSamples : Nat → Option (Nat → Int))
    (numDestChannels startOffsetInDestBuffer : Nat)
    (startSampleInFile : Int) (numSamples : Nat) :
    (runSourceReader src use64BitSamples
        (ops ++ SourceOp.destroySource :: ops')).araHostReader = none ∧
    (runSourceReader src use64BitSamples
        (ops ++ SourceOp.destroySource :: ops')).audioSourceBeingRead = none ∧
    runSourceReader src use64BitSamples (ops ++ SourceOp.destroySource :: ops') =
      runSourceReader src use64BitSamples (ops ++ [SourceOp.destroySource]) ∧
    (ARAAudioSourceReader.readSamples
        (runSourceReader src use64BitSamples
          (ops ++ SourceOp.destroySource :: ops')).tmpPtrsSize
        (runSourceReader src use64BitSamples
          (ops ++ SourceOp.destroySource :: ops')).araHostReader
        lock destSamples numDestChannels startOffsetInDestBuffer
        startSampleInFile numSamples).2.2 = false ∧
    (ARAAudioSourceReader.readSamples
        (runSourceReader src use64BitSamples
          (ops ++ SourceOp.destroySource :: ops')).tmpPtrsSize
        (runSourceReader src use64BitSamples
          (ops ++ SourceOp.destroySource :: ops')).araHostReader
        lock destSamples numDestChannels startOffsetInDestBuffer
        startSampleInFile numSamples).2.1 =
      fun ch => if ch < numDestChannels then
          (destSamples ch).map
            (fun b => zeroFill b startOffsetInDestBuffer numSamples)
        else destSamples ch := by
  have hfrozen := runSourceReader_frozenClear src use64BitSamples ops
  have hdestroy := applySourceOp_destroy
    (runSourceReader src use64BitSamples ops) hfrozen
  have hrun1 : runSourceReader src use64BitSamples (ops ++ [SourceOp.destroySource]) =
      applySourceOp (runSourceReader src use64BitSamples ops) .destroySource := by
    unfold runSourceReader
    rw [List.foldl_append]
    rfl
  have hrun : runSourceReader src use64BitSamples
      (ops ++ SourceOp.destroySource :: ops') =
      applySourceOp (runSourceReader src use64BitSamples ops) .destroySource := by
    unfold runSourceReader
    rw [List.foldl_append, List.foldl_cons]
    exact foldl_applySourceOp_not_listening _ hdestroy.1 ops'
  rw [hrun, hrun1]
  refine ⟨hdestroy.2.1, hdestroy.2.2, rfl, ?_, ?_⟩ <;>
  · unfold ARAAudioSourceReader.readSamples
    rw [dif_pos (Or.inr (by rw [hdestroy.2.1] ; rfl))]

/-- Witness for C1: a concrete contested read (writer active) on a
one-channel reader zero-fills the requested span and fails. -/
theorem sourceReader_read_failure_zeroFills_witness :
    (ARAAudioSourceReader.readSamples 1 none ⟨true, 0⟩
        (fun _ => some (fun _ => 7)) 1 2 0 3).2.2 = false ∧
    ∀ ch, ch < 1 → ∀ b, (fun _ : Nat => some (fun _ : Nat => (7 : Int))) ch = some b →
      (ARAAudioSourceReader.readSamples 1 none ⟨true, 0⟩
          (fun _ => some (fun _ => 7)) 1 2 0 3).2.1 ch =
        some (zeroFill b 2 3) :=
  sourceReader_read_failure_zeroFills 1 none ⟨true, 0⟩
    (fun _ => some (fun _ => 7)) 1 2 0 3 (Or.inr rfl)

/-- Counterexample to C3: after a content update whose flags do not say
the signal scope is unchanged, the accessor is destroyed while the
source still reports access enabled and is not destroyed, so the
claimed "if and only if" fails on this reachable state. -/
theorem sourceReader_accessor_iff_cex :
    ¬ ((runSourceReader cexSrc false
          [SourceOp.updateContent false]).araHostReader.isSome = true ↔
       (runSourceReader cexSrc false
          [SourceOp.updateContent false]).sourceEnabledLive) := by
  have hstate : runSourceReader cexSrc false [SourceOp.updateContent false] =
      { bitsPerSample := 32, numChannels := 2, tmpPtrsSize := 2,
        audioSourceBeingRead := some cexSrc, araHostReader := none,
        listening := true } := rfl
  intro hiff
  rw [hstate] at hiff
  have hlive : SourceReaderState.sourceEnabledLive
      { bitsPerSample := 32, numChannels := 2, tmpPtrsSize := 2,
        audioSourceBeingRead := some cexSrc, araHostReader := none,
        listening := true } := ⟨cexSrc, rfl, rfl⟩
  exact absurd (hiff.mpr hlive) (by simp)

lemma applySourceOp_accessorImpliesLive (s : SourceReaderState)
    (op : SourceOp) (hs : s.accessorImpliesLive) :
    (applySourceOp s op).accessorImpliesLive := by
  by_cases h : s.listening = false
  · rw [applySourceOp_not_listening s op h]
    exact hs
  · unfold applySourceOp
    rw [if_neg h]
    cases op with
    | enableAccess e =>
      cases hsrc : s.audioSourceBeingRead with
      | none => exact hs
      | some src =>
        cases e with
        | false =>
          intro hsome
          simp [SourceReaderState.accessorImpliesLive] at hsome
        | true =>
          intro _
          exact ⟨{ src with accessEnabled := true }, rfl, rfl⟩
    | updateContent u =>
      cases u with
      | false =>
        intro hsome
        simp at hsome
      | true => simpa using hs
    | destroySource =>
      intro hsome
      simp at hsome

lemma constructSourceReader_accessorImpliesLive (src : AudioSourceState)
    (use64BitSamples : Bool) :
    (constructSourceReader src use64BitSamples).accessorImpliesLive := by
  intro hsome
  refine ⟨src, rfl, ?_⟩
  by_cases he : src.accessEnabled = true
  · exact he
  · simp [constructSourceReader, he] at hsome

/-- Claim C3, amended: at every reachable state the Host Accessor is
non-null only if the governing Audio Source reports access enabled and
has not been destroyed (the converse fails: a content update destroys
the accessor while access stays enabled). -/
theorem sourceReader_accessor_onlyIf_live (src : AudioSourceState)
    (use64BitSamples : Bool) (ops : List SourceOp)
    (hsome : (runSourceReader src use64BitSamples ops).araHostReader.isSome
      = true) :
    (runSourceReader src use64BitSamples ops).sourceEnabledLive := by
  revert hsome
  show (runSourceReader src use64BitSamples ops).accessorImpliesLive
  unfold runSourceReader
  induction ops using List.reverseRecOn with
  | nil => exact constructSourceReader_accessorImpliesLive src use64BitSamples
  | append_singleton l op ih =>
    rw [List.foldl_append, List.foldl_cons, List.foldl_nil]
    exact applySourceOp_accessorImpliesLive _ op ih

/-- Witness for the amended C3: a freshly constructed reader on an
enabled source has an accessor, and the source is live and enabled. -/
theorem sourceReader_accessor_onlyIf_live_witness :
    (runSourceReader cexSrc false []).sourceEnabledLive :=
  sourceReader_accessor_onlyIf_live cexSrc false [] rfl

/-- C9 failing input: the lock is uncontested (no writer, no reader) but
no Host Accessor exists.  `!lock.tryEnterRead() || araHostReader ==
nullptr` short-circuits: `tryEnterRead` succeeds and increments the
reader count, the second disjunct routes to the early `return false`,
and no `exitRead` runs — the call returns with the reader count
permanently incremented, so a later `enterWrite` blocks forever. -/
theorem sourceReader_read_leaks_readLock :
    (ARAAudioSourceReader.readSamples 2 none ⟨false, 0⟩
        (fun _ => some (fun _ => 7)) 2 0 0 4).1 = ⟨false, 1⟩ ∧
    (ARAAudioSourceReader.readSamples 2 none ⟨false, 0⟩
        (fun _ => some (fun _ => 7)) 2 0 0 4).2.2 = false ∧
    (ARAAudioSourceReader.readSamples 2 (some cexHostReader) ⟨false, 0⟩
        (fun _ => some (fun _ => 7)) 2 0 0 4).1 = ⟨false, 0⟩ :=
  ⟨rfl, rfl, rfl⟩

/-- The successful read path of `ARAAudioSourceReader::readSamples`,
destination channels: with the lock uncontested and an accessor present,
channels below both `tmpPtrs.size()` and `numDestChannels` receive the
accessor's samples over the requested span and every other channel is
untouched. -/
lemma sourceReader_read_success_dest
    (tmpPtrsSize : Nat) (v : HostAudioReader) (lock : LockState)
    (destSamples : Nat → Option (Nat → Int))
    (numDestChannels startOffsetInDestBuffer : Nat)
    (startSampleInFile : Int) (numSamples : Nat) (ch : Nat)
    (hw : lock.writerActive = false) :
    (ARAAudioSourceReader.readSamples tmpPtrsSize (some v) lock destSamples
        numDestChannels startOffsetInDestBuffer startSampleInFile
        numSamples).2.1 ch =
      (if ch < tmpPtrsSize ∧ ch < numDestChannels then
        (destSamples ch).map
          (fun b => writeThrough b startOffsetInDestBuffer numSamples
            (fun i => v.sampleAt ch (startSampleInFile + i)))
      else destSamples ch) := by
  unfold ARAAudioSourceReader.readSamples
  rw [dif_neg (by simp [hw])]
  rfl

/-- The successful read path of `ARAAudioSourceReader::readSamples`,
return value: the Host Accessor's `readAudioSamples` flag. -/
lemma sourceReader_read_success_flag
    (tmpPtrsSize : Nat) (v : HostAudioReader) (lock : LockState)
    (destSamples : Nat → Option (Nat → Int))
    (numDestChannels startOffsetInDestBuffer : Nat)
    (startSampleInFile : Int) (numSamples : Nat)
    (hw : lock.writerActive = false) :
    (ARAAudioSourceReader.readSamples tmpPtrsSize (some v) lock destSamples
        numDestChannels startOffsetInDestBuffer startSampleInFile
        numSamples).2.2 = v.readSuccess startSampleInFile numSamples := by
  unfold ARAAudioSourceReader.readSamples
  rw [dif_neg (by simp [hw])]
  rfl

/-- Claim C10: for a destination channel index at or above the reader's
channel count (`tmpPtrs.size()`) but below `numDestChannels`, the
failure path zero-fills the channel over the requested span, while the
success path leaves it entirely unchanged (the accessor writes that
channel slot into the dummy scratch buffer instead). -/
theorem sourceReader_extraChannels_by_outcome
    (tmpPtrsSize : Nat) (araHostReader : Option HostAudioReader)
    (lock : LockState) (destSamples : Nat → Option (Nat → Int))
    (numDestChannels startOffsetInDestBuffer : Nat)
    (startSampleInFile : Int) (numSamples : Nat) (ch : Nat) (b : Nat → Int)
    (hlo : tmpPtrsSize ≤ ch) (hhi : ch < numDestChannels)
    (hb : destSamples ch = some b) :
    ((lock.writerActive = true ∨ araHostReader = none) →
      (ARAAudioSourceReader.readSamples tmpPtrsSize araHostReader lock
          destSamples numDestChannels startOffsetInDestBuffer
          startSampleInFile numSamples).2.1 ch =
        some (zeroFill b startOffsetInDestBuffer numSamples)) ∧
    (lock.writerActive = false → araHostReader.isSome = true →
      (ARAAudioSourceReader.readSamples tmpPtrsSize araHostReader lock
          destSamples numDestChannels startOffsetInDestBuffer
          startSampleInFile numSamples).2.1 ch = some b) := by
  constructor
  · intro hfail
    rw [sourceReader_read_failure_eq tmpPtrsSize araHostReader lock
      destSamples numDestChannels startOffsetInDestBuffer startSampleInFile
      numSamples hfail]
    simp only [if_pos hhi, hb, Option.map_some']
  · intro hw hsome
    obtain ⟨v, rfl⟩ := Option.isSome_iff_exists.mp hsome
    rw [sourceReader_read_success_dest tmpPtrsSize v lock destSamples
      numDestChannels startOffsetInDestBuffer startSampleInFile numSamples
      ch hw]
    rw [if_neg (fun hcontra => absurd hcontra.1 (Nat.not_lt.mpr hlo))]
    exact hb

/-- Witness for C10: channel 1 of a one-channel reader, with two
destination channels supplied: zero-filled on the contested path,
untouched on the successful path. -/
theorem sourceReader_extraChannels_by_outcome_witness :
    ((LockState.mk false 0).writerActive = true ∨
        (some cexHostReader : Option HostAudioReader) = none →
      (ARAAudioSourceReader.readSamples 1 (some cexHostReader) ⟨false, 0⟩
          (fun _ => some (fun _ => 7)) 2 0 0 3).2.1 1 =
        some (zeroFill (fun _ => 7) 0 3)) ∧
    ((LockState.mk false 0).writerActive = false →
      (some cexHostReader : Option HostAudioReader).isSome = true →
      (ARAAudioSourceReader.readSamples 1 (some cexHostReader) ⟨false, 0⟩
          (fun _ => some (fun _ => 7)) 2 0 0 3).2.1 1 =
        some (fun _ => 7)) :=
  sourceReader_extraChannels_by_outcome 1 (some cexHostReader) ⟨false, 0⟩
    (fun _ => some (fun _ => 7)) 2 0 0 3 1 (fun _ => 7)
    (by decide) (by decide) rfl

/-- Counterexample to C4: a contested `ARAPlaybackRegionReader` read
with `startOffsetInDestBuffer = 1` and `numSamples = 1` returns `false`
but leaves frame 1 — the requested span — untouched at its stale value
7, because `FloatVectorOperations::clear` is applied at buffer offset 0:
frame 0 is zeroed instead. -/
theorem playbackReader_failure_span_cex :
    (ARAPlaybackRegionReader.readSamples cexFailingRenderer (by decide)
        ⟨true, 0⟩ (fun _ _ => 7) 1 1 0 1).2.2 = false ∧
    (ARAPlaybackRegionReader.readSamples cexFailingRenderer (by decide)
        ⟨true, 0⟩ (fun _ _ => 7) 1 1 0 1).2.1 0 1 ≠ 0 ∧
    (ARAPlaybackRegionReader.readSamples cexFailingRenderer (by decide)
        ⟨true, 0⟩ (fun _ _ => 7) 1 1 0 1).2.1 0 0 = 0 := by
  refine ⟨rfl, ?_, rfl⟩
  intro hcontra
  have : (7 : Int) = 0 := hcontra
  norm_num at this

/-- Claim C4, amended: on a failed `tryEnterRead`,
`ARAPlaybackRegionReader::readSamples` zeroes the first `numSamples`
frames (offset 0, not `startOffsetInDestBuffer`) of every destination
channel below `numDestChannels`, leaves all other frames unchanged, and
returns `false`; the requested span is entirely zero exactly when
`startOffsetInDestBuffer = 0`. -/
theorem playbackReader_failure_zeroesAtStart (rd : Renderer)
    (hmax : 0 < rd.maxSamplesPerBlock) (lock : LockState)
    (destSamples : Nat → Nat → Int)
    (numDestChannels startOffsetInDestBuffer : Nat)
    (startSampleInFile : Int) (numSamples : Nat)
    (hw : lock.writerActive = true) :
    (ARAPlaybackRegionReader.readSamples rd hmax lock destSamples
        numDestChannels startOffsetInDestBuffer startSampleInFile
        numSamples).2.2 = false ∧
    (ARAPlaybackRegionReader.readSamples rd hmax lock destSamples
        numDestChannels startOffsetInDestBuffer startSampleInFile
        numSamples).2.1 =
      fun ch i => if ch < numDestChannels ∧ i < numSamples then 0
        else destSamples ch i := by
  unfold ARAPlaybackRegionReader.readSamples
  rw [if_pos hw]
  exact ⟨rfl, rfl⟩

/-- Witness for the amended C4: a concrete contested playback-region
read zeroes the head of each buffer and fails. -/
theorem playbackReader_failure_zeroesAtStart_witness :
    (ARAPlaybackRegionReader.readSamples cexFailingRenderer (by decide)
        ⟨true, 0⟩ (fun _ _ => 7) 2 0 0 3).2.2 = false ∧
    (ARAPlaybackRegionReader.readSamples cexFailingRenderer (by decide)
        ⟨true, 0⟩ (fun _ _ => 7) 2 0 0 3).2.1 =
      fun ch i => if ch < 2 ∧ i < 3 then 0 else (fun _ _ => (7 : Int)) ch i :=
  playbackReader_failure_zeroesAtStart cexFailingRenderer (by decide)
    ⟨true, 0⟩ (fun _ _ => 7) 2 0 0 3 rfl

/-- Counterexample to C5: every `processBlock` call of this renderer
reports failure for every range, yet the playback-region read that
reached it returns `true`. -/
theorem playbackReader_ignores_renderer_result_cex :
    (ARAPlaybackRegionReader.readSamples cexFailingRenderer (by decide)
        ⟨false, 0⟩ (fun _ _ => 7) 1 0 0 2).2.2 = true ∧
    cexFailingRenderer.blockResult 0 2 = false := by
  constructor
  · unfold ARAPlaybackRegionReader.readSamples
    rw [if_neg (by simp)]
  · rfl

/-- Claim C5, amended: `ARAAudioSourceReader::readSamples` propagates
the Host Accessor's `readAudioSamples` flag as its return value, but
`ARAPlaybackRegionReader::readSamples` returns `true` whenever the lock
was acquired, regardless of any failure the renderer reports. -/
theorem readers_failure_propagation
    (tmpPtrsSize : Nat) (hr : HostAudioReader) (lock : LockState)
    (destSamples : Nat → Option (Nat → Int))
    (numDestChannels startOffsetInDestBuffer : Nat)
    (startSampleInFile : Int) (numSamples : Nat)
    (rd : Renderer) (hmax : 0 < rd.maxSamplesPerBlock) (lock' : LockState)
    (destSamples' : Nat → Nat → Int)
    (numDestChannels' startOffsetInDestBuffer' : Nat)
    (startSampleInFile' : Int) (numSamples' : Nat)
    (hw : lock.writerActive = false) (hw' : lock'.writerActive = false) :
    (ARAAudioSourceReader.readSamples tmpPtrsSize (some hr) lock destSamples
        numDestChannels startOffsetInDestBuffer startSampleInFile
        numSamples).2.2 = hr.readSuccess startSampleInFile numSamples ∧
    (ARAPlaybackRegionReader.readSamples rd hmax lock' destSamples'
        numDestChannels' startOffsetInDestBuffer' startSampleInFile'
        numSamples').2.2 = true := by
  constructor
  · exact sourceReader_read_success_flag tmpPtrsSize hr lock destSamples
      numDestChannels startOffsetInDestBuffer startSampleInFile numSamples hw
  · unfold ARAPlaybackRegionReader.readSamples
    rw [if_neg (by simp [hw'])]

/-- Witness for the amended C5: with a failing accessor the source read
returns `false`; with a failing renderer the playback-region read still
returns `true`. -/
theorem readers_failure_propagation_witness :
    (ARAAudioSourceReader.readSamples 2
        (some ⟨fun _ _ => 9, fun _ _ => false⟩) ⟨false, 0⟩
        (fun _ => some (fun _ => 7)) 2 0 0 4).2.2 =
      HostAudioReader.readSuccess ⟨fun _ _ => 9, fun _ _ => false⟩ 0 4 ∧
    (ARAPlaybackRegionReader.readSamples cexFailingRenderer (by decide)
        ⟨false, 0⟩ (fun _ _ => 7) 2 0 0 4).2.2 = true :=
  readers_failure_propagation 2 ⟨fun _ _ => 9, fun _ _ => false⟩ ⟨false, 0⟩
    (fun _ => some (fun _ => 7)) 2 0 0 4 cexFailingRenderer (by decide)
    ⟨false, 0⟩ (fun _ _ => 7) 2 0 0 4 rfl rfl

/-- Counterexample to C6: for the single region whose source reports
sample rate 0 and channel count 0 and whose end position is one second,
the constructor yields channel count 1 (not the claimed max of the
channel counts, 0) and length 0 (not the claimed end position expressed
at the chosen default rate 44100, which is 44100): the channel count is
floored at 1, and when the default rate kicks in the lengths were
already computed at rate 0. -/
theorem playbackRegionReader_format_cex :
    constructPlaybackRegionReader [cexZeroRateRegion] = ⟨44100, 1, 0⟩ ∧
    (constructPlaybackRegionReader [cexZeroRateRegion]).numChannels ≠
      cexZeroRateRegion.sourceChannelCount ∧
    (constructPlaybackRegionReader [cexZeroRateRegion]).lengthInSamples ≠
      cexZeroRateRegion.endInPlaybackSamples
        (constructPlaybackRegionReader [cexZeroRateRegion]).sampleRate := by
  have h : constructPlaybackRegionReader [cexZeroRateRegion] = ⟨44100, 1, 0⟩ := by
    norm_num [constructPlaybackRegionReader, prFormatStep, cexZeroRateRegion]
  refine ⟨h, ?_, ?_⟩
  · rw [h]
    norm_num [cexZeroRateRegion]
  · rw [h]
    norm_num [cexZeroRateRegion]

/-- Folding the constructor's loop body from a state that has already
adopted a nonzero sample rate keeps that rate and maxes in the channel
counts and the end positions queried at that rate. -/
lemma foldl_prFormatStep_fixedRate (l : List PlaybackRegionInfo)
    (st : PRFormat) (hst : st.sampleRate ≠ 0) :
    l.foldl prFormatStep st =
      ⟨st.sampleRate,
       l.foldl (fun a r => max a r.sourceChannelCount) st.numChannels,
       l.foldl (fun a r => max a (r.endInPlaybackSamples st.sampleRate))
         st.lengthInSamples⟩ := by
  induction l generalizing st with
  | nil => rfl
  | cons r l ih =>
    rw [List.foldl_cons, List.foldl_cons, List.foldl_cons]
    have hstep : prFormatStep st r =
        ⟨st.sampleRate, max st.numChannels r.sourceChannelCount,
         max st.lengthInSamples (r.endInPlaybackSamples st.sampleRate)⟩ := by
      unfold prFormatStep
      rw [if_neg hst]
    rw [hstep]
    exact ih _ hst

/-- Claim C6, amended: provided the first region's source reports a
nonzero sample rate `r1`, the constructor sets sample rate `r1`, channel
count `max (1, c1, …, cN)` (the initial channel count 1 is part of the
max), and length `max (0, e1, …, eN)` with every end position expressed
at rate `r1` (the initial length 0 is part of the max). -/
theorem playbackRegionReader_format (r0 : PlaybackRegionInfo)
    (rs : List PlaybackRegionInfo) (h0 : r0.sourceSampleRate ≠ 0) :
    constructPlaybackRegionReader (r0 :: rs) =
      ⟨r0.sourceSampleRate,
       rs.foldl (fun a r => max a r.sourceChannelCount)
         (max 1 r0.sourceChannelCount),
       rs.foldl (fun a r => max a (r.endInPlaybackSamples r0.sourceSampleRate))
         (max 0 (r0.endInPlaybackSamples r0.sourceSampleRate))⟩ := by
  unfold constructPlaybackRegionReader
  rw [List.foldl_cons]
  have hstep : prFormatStep ⟨0, 1, 0⟩ r0 =
      ⟨r0.sourceSampleRate, max 1 r0.sourceChannelCount,
       max 0 (r0.endInPlaybackSamples r0.sourceSampleRate)⟩ := by
    unfold prFormatStep
    rw [if_pos rfl]
  rw [hstep, foldl_prFormatStep_fixedRate rs _ h0]
  rw [if_neg h0]

/-- Witness for the amended C6: a single region at 48000 Hz, two
channels, end position 96000: the reader reports 48000 / 2 / 96000. -/
theorem playbackRegionReader_format_witness :
    constructPlaybackRegionReader [cexRegionA] =
      ⟨cexRegionA.sourceSampleRate,
       List.foldl (fun a r => max a r.sourceChannelCount)
         (max 1 cexRegionA.sourceChannelCount)
         ([] : List PlaybackRegionInfo),
       List.foldl
         (fun a r => max a (r.endInPlaybackSamples cexRegionA.sourceSampleRate))
         (max 0 (cexRegionA.endInPlaybackSamples cexRegionA.sourceSampleRate))
         ([] : List PlaybackRegionInfo)⟩ :=
  playbackRegionReader_format cexRegionA [] (by norm_num [cexRegionA])

lemma renderLoop_zero (rd : Renderer) (hmax : 0 < rd.maxSamplesPerBlock)
    (destSamples : Nat → Nat → Int)
    (numDestChannels startOffsetInDestBuffer : Nat)
    (startSampleInFile : Int) :
    rd.renderLoop hmax destSamples numDestChannels startOffsetInDestBuffer
      startSampleInFile 0 = destSamples := by
  unfold Renderer.renderLoop
  rfl

lemma renderLoop_step (rd : Renderer) (hmax : 0 < rd.maxSamplesPerBlock)
    (destSamples : Nat → Nat → Int)
    (numDestChannels startOffsetInDestBuffer : Nat)
    (startSampleInFile : Int) (numSamples : Nat) (hn : numSamples ≠ 0) :
    rd.renderLoop hmax destSamples numDestChannels startOffsetInDestBuffer
      startSampleInFile numSamples =
    rd.renderLoop hmax
      (rd.processBlock destSamples numDestChannels startOffsetInDestBuffer
        startSampleInFile (min numSamples rd.maxSamplesPerBlock))
      numDestChannels
      (startOffsetInDestBuffer + min numSamples rd.maxSamplesPerBlock)
      (startSampleInFile + ((min numSamples rd.maxSamplesPerBlock : Nat) : Int))
      (numSamples - min numSamples rd.maxSamplesPerBlock) := by
  conv_lhs => unfold Renderer.renderLoop
  rw [dif_neg hn]

lemma readSeq_zero (rd : Renderer) (hmax : 0 < rd.maxSamplesPerBlock)
    (lock : LockState) (destSamples : Nat → Nat → Int)
    (numDestChannels startOffsetInDestBuffer : Nat)
    (startSampleInFile : Int) :
    ARAPlaybackRegionReader.readSeq rd hmax lock destSamples numDestChannels
      startOffsetInDestBuffer startSampleInFile 0 =
      (lock, destSamples, true) := by
  unfold ARAPlaybackRegionReader.readSeq
  rfl

lemma readSeq_step (rd : Renderer) (hmax : 0 < rd.maxSamplesPerBlock)
    (lock : LockState) (destSamples : Nat → Nat → Int)
    (numDestChannels startOffsetInDestBuffer : Nat)
    (startSampleInFile : Int) (numSamples : Nat) (hn : numSamples ≠ 0) :
    ARAPlaybackRegionReader.readSeq rd hmax lock destSamples numDestChannels
      startOffsetInDestBuffer startSampleInFile numSamples =
    (let k := min numSamples rd.maxSamplesPerBlock
     let step := ARAPlaybackRegionReader.readSamples rd hmax lock destSamples
       numDestChannels startOffsetInDestBuffer startSampleInFile k
     let rest := ARAPlaybackRegionReader.readSeq rd hmax step.1 step.2.1
       numDestChannels (startOffsetInDestBuffer + k)
       (startSampleInFile + (k : Int)) (numSamples - k)
     (rest.1, rest.2.1, step.2.2 && rest.2.2)) := by
  conv_lhs => unfold ARAPlaybackRegionReader.readSeq
  rw [dif_neg hn]

/-- One read of at most the maximum block size renders exactly one
`processBlock` chunk (with the lock acquired and released). -/
lemma readSamples_single_chunk (rd : Renderer)
    (hmax : 0 < rd.maxSamplesPerBlock) (lock : LockState)
    (destSamples : Nat → Nat → Int)
    (numDestChannels startOffsetInDestBuffer : Nat)
    (startSampleInFile : Int) (k : Nat) (hk : k ≤ rd.maxSamplesPerBlock)
    (hk0 : k ≠ 0) (hw : lock.writerActive = false) :
    ARAPlaybackRegionReader.readSamples rd hmax lock destSamples
      numDestChannels startOffsetInDestBuffer startSampleInFile k =
      (lock,
       rd.processBlock destSamples numDestChannels startOffsetInDestBuffer
         startSampleInFile k,
       true) := by
  unfold ARAPlaybackRegionReader.readSamples
  rw [if_neg (by simp [hw])]
  rw [renderLoop_step rd hmax destSamples numDestChannels
    startOffsetInDestBuffer startSampleInFile k hk0]
  rw [min_eq_left hk, Nat.sub_self]
  rw [renderLoop_zero]

/-- With the lock uncontested, the back-to-back chunk sequence computes
the rendering loop ran by a single `readSamples` call, leaves the lock
as it was, and reports success. -/
lemma readSeq_eq_renderLoop (rd : Renderer)
    (hmax : 0 < rd.maxSamplesPerBlock) (lock : LockState)
    (destSamples : Nat → Nat → Int)
    (numDestChannels startOffsetInDestBuffer : Nat)
    (startSampleInFile : Int) (numSamples : Nat)
    (hw : lock.writerActive = false) :
    ARAPlaybackRegionReader.readSeq rd hmax lock destSamples numDestChannels
      startOffsetInDestBuffer startSampleInFile numSamples =
      (lock,
       rd.renderLoop hmax destSamples numDestChannels startOffsetInDestBuffer
         startSampleInFile numSamples,
       true) := by
  induction numSamples using Nat.strong_induction_on
    generalizing destSamples startOffsetInDestBuffer startSampleInFile with
  | _ n ih =>
    by_cases hn : n = 0
    · subst hn
      rw [readSeq_zero, renderLoop_zero]
    · have hk0 : min n rd.maxSamplesPerBlock ≠ 0 :=
        Nat.pos_iff_ne_zero.mp (lt_min (Nat.pos_of_ne_zero hn) hmax)
      rw [readSeq_step rd hmax lock destSamples numDestChannels
        startOffsetInDestBuffer startSampleInFile n hn]
      simp only
      rw [readSamples_single_chunk rd hmax lock destSamples numDestChannels
        startOffsetInDestBuffer startSampleInFile
        (min n rd.maxSamplesPerBlock) (min_le_right n rd.maxSamplesPerBlock)
        hk0 hw]
      simp only
      rw [ih (n - min n rd.maxSamplesPerBlock)
        (Nat.sub_lt (Nat.pos_of_ne_zero hn)
          (lt_min (Nat.pos_of_ne_zero hn) hmax)) _ _ _]
      rw [renderLoop_step rd hmax destSamples numDestChannels
        startOffsetInDestBuffer startSampleInFile n hn]
      rfl

/-- Claim C7: a successful `ARAPlaybackRegionReader::readSamples` call
whose span exceeds the renderer's maximum block size equals the
back-to-back sequence of reads of at most the maximum block size over
the same total span (destination offset and file position advanced per
chunk): same lock state, bit-for-bit the same destination contents, and
it returns success once all chunks have rendered. -/
theorem playbackReader_chunked_read_equiv (rd : Renderer)
    (hmax : 0 < rd.maxSamplesPerBlock) (lock : LockState)
    (destSamples : Nat → Nat → Int)
    (numDestChannels startOffsetInDestBuffer : Nat)
    (startSampleInFile : Int) (numSamples : Nat)
    (hw : lock.writerActive = false)
    (hbig : rd.maxSamplesPerBlock < numSamples) :
    ARAPlaybackRegionReader.readSamples rd hmax lock destSamples
      numDestChannels startOffsetInDestBuffer startSampleInFile numSamples =
    ARAPlaybackRegionReader.readSeq rd hmax lock destSamples numDestChannels
      startOffsetInDestBuffer startSampleInFile numSamples ∧
    (ARAPlaybackRegionReader.readSamples rd hmax lock destSamples
      numDestChannels startOffsetInDestBuffer startSampleInFile
      numSamples).2.2 = true := by
  have hseq := readSeq_eq_renderLoop rd hmax lock destSamples numDestChannels
    startOffsetInDestBuffer startSampleInFile numSamples hw
  have hread : ARAPlaybackRegionReader.readSamples rd hmax lock destSamples
      numDestChannels startOffsetInDestBuffer startSampleInFile numSamples =
      (lock,
       rd.renderLoop hmax destSamples numDestChannels startOffsetInDestBuffer
         startSampleInFile numSamples,
       true) := by
    unfold ARAPlaybackRegionReader.readSamples
    rw [if_neg (by simp [hw])]
  exact ⟨hread.trans hseq.symm, by rw [hread]⟩

/-- Witness for C7: a concrete five-frame read through a renderer with
maximum block size four equals its two-chunk back-to-back sequence and
succeeds. -/
theorem playbackReader_chunked_read_equiv_witness :
    ARAPlaybackRegionReader.readSamples cexFailingRenderer (by decide)
      ⟨false, 0⟩ (fun _ _ => 7) 2 1 3 5 =
    ARAPlaybackRegionReader.readSeq cexFailingRenderer (by decide)
      ⟨false, 0⟩ (fun _ _ => 7) 2 1 3 5 ∧
    (ARAPlaybackRegionReader.readSamples cexFailingRenderer (by decide)
      ⟨false, 0⟩ (fun _ _ => 7) 2 1 3 5).2.2 = true :=
  playbackReader_chunked_read_equiv cexFailingRenderer (by decide)
    ⟨false, 0⟩ (fun _ _ => 7) 2 1 3 5 rfl (by decide)

/-- Counterexample to C8: in the trace of
`ARARegionSequenceReader::didAddPlaybackRegionToRegionSequence` for a
region still in the sequence, the listener registration for the new
region strictly precedes the renderer resource release, so the release
is not performed first. -/
theorem seqReader_didAdd_order_cex :
    SeqReaderAction.regionAddListener ∈
      didAddPlaybackRegionToRegionSequence true ∧
    SeqReaderAction.rendererReleaseResources ∈
      didAddPlaybackRegionToRegionSequence true ∧
    (didAddPlaybackRegionToRegionSequence true).indexOf
        SeqReaderAction.regionAddListener <
      (didAddPlaybackRegionToRegionSequence true).indexOf
        SeqReaderAction.rendererReleaseResources := by
  decide

/-- Claim C8, amended: for a region still in the sequence the handler
performs, under the scoped writer lock, the listener registration for
the new region first, then the renderer resource release for the current
region set, and only then adds the region to the renderer (the release
still precedes the renderer add); for a region no longer in the sequence
it does nothing. -/
theorem seqReader_didAdd_trace :
    didAddPlaybackRegionToRegionSequence true =
      [.enterWriteLock, .regionAddListener, .rendererReleaseResources,
       .rendererAddRegion, .exitWriteLock] ∧
    didAddPlaybackRegionToRegionSequence false = [] ∧
    (didAddPlaybackRegionToRegionSequence true).indexOf
        SeqReaderAction.rendererReleaseResources <
      (didAddPlaybackRegionToRegionSequence true).indexOf
        SeqReaderAction.rendererAddRegion := by
  decide

end ARAReaders
